import Mathlib

/-!
Shallow embedding of the portfolio-tracking trading program (`futu_fetch.py`):
snapshot diffing (`get_changes`), change-entry generation
(`generate_change_data`), tracked order execution (`track_and_trade`),
the bounded-retry order submission wrapper (`submit_order`), the
stop-loss / take-profit scan (`check_and_trade`), and one iteration of the
polling loop in `main` (`mainCycle`).

Numbers are modelled by `ℚ`; Python `int()` truncation and `round(x, 2)`
(banker's rounding) are modelled explicitly.  Python exceptions are
modelled by `Except`.
-/

/-- A Python value that may sit in the feed's market-level `ratio` slot:
a number, `None` (key absent, since `dict.get` returns `None`), or some
non-numeric JSON value. -/
inductive PyVal where
  | pynone
  | num (q : ℚ)
  | nonNum
deriving DecidableEq

/-- One `record_items` element of the feed, with the fields the program
reads: `stock_name`, `stock_code`, `market`, the raw `total_ratio`
(field `ratioTotal` here), and the two prices, fixed-point scaled by `10^9`.
Structural equality of records models the `json.dumps(·, sort_keys=True)`
comparison on the corresponding dicts. -/
structure Record where
  stock_name : String
  stock_code : String
  market : ℤ
  ratioTotal : ℚ
  current_price : ℚ
  cost_price : ℚ
deriving DecidableEq

/-- One `market_items` element; the program only reads its `ratio` slot
(field `ratioField` here). -/
structure MarketItem where
  ratioField : PyVal
deriving DecidableEq

/-- The `data` payload fetched from the feed: `record_items` plus
`market_items` (lines 355-356, 376-379 of the source). -/
structure FullData where
  record_items : List Record
  market_items : List MarketItem
deriving DecidableEq

/-- Banker's rounding of a rational to the nearest integer
(Python `round` on an exact value). -/
def roundHalfEven (x : ℚ) : ℤ :=
  if x - ⌊x⌋ < 1 / 2 then ⌊x⌋
  else if 1 / 2 < x - ⌊x⌋ then ⌊x⌋ + 1
  else if ⌊x⌋ % 2 = 0 then ⌊x⌋ else ⌊x⌋ + 1

/-- Python `round(x, 2)`. -/
def round2 (x : ℚ) : ℚ := (roundHalfEven (x * 100) : ℚ) / 100

/-- Python `int()` truncation toward zero on a rational. -/
def pyInt (q : ℚ) : ℤ := if 0 ≤ q then ⌊q⌋ else ⌈q⌉

/-- Python `abs()` on a rational. -/
def pyAbs (q : ℚ) : ℚ := if q < 0 then -q else q

/-- Python `abs()` on an integer. -/
def pyAbsInt (i : ℤ) : ℤ := if i < 0 then -i else i

/-! ### Insertion-ordered dict, as built by the dict comprehensions
`{item['stock_code']: item for item in records}` (lines 382-383). -/

/-- The keys of an association list, in order. -/
def dictKeys (d : List (String × Record)) : List String := d.map Prod.fst

/-- Python dict insertion: an existing key keeps its position and gets the
new value; a fresh key is appended. -/
def dictInsert (d : List (String × Record)) (k : String) (v : Record) :
    List (String × Record) :=
  if k ∈ dictKeys d then d.map (fun p => if p.1 = k then (k, v) else p)
  else d ++ [(k, v)]

/-- Build the `stock_code -> item` dict from a record list. -/
def buildDict (l : List Record) : List (String × Record) :=
  l.foldl (fun d r => dictInsert d r.stock_code r) []

/-- Python dict lookup. -/
def dictLookup : List (String × Record) → String → Option Record
  | [], _ => none
  | p :: rest, k => if p.1 = k then some p.2 else dictLookup rest k

/-- Line 379: the market ratio slot of the new snapshot — the first
`market_items` entry's `ratio` when `market_items` is truthy (non-empty),
else the literal `1`. -/
def marketRatioOf (d : FullData) : PyVal :=
  match d.market_items with
  | [] => PyVal.num 1
  | m :: _ => m.ratioField

/-- Lines 364-404, `get_changes`: diff the two snapshots' `record_items`.
First pass over the old dict emits `(old, new)` for structurally unequal
records and `(old, none)` for removals; second pass over the new dict
emits `(none, new)` for additions.  The second component is the market
ratio slot read from the NEW snapshot. -/
def get_changes (old_full_data new_full_data : FullData) :
    List (Option Record × Option Record) × PyVal :=
  ((buildDict old_full_data.record_items).filterMap (fun p =>
      match dictLookup (buildDict new_full_data.record_items) p.1 with
      | some new_item =>
        if p.2 = new_item then none else some (some p.2, some new_item)
      | none => some (some p.2, none))
    ++
    (buildDict new_full_data.record_items).filterMap (fun p =>
      if (dictLookup (buildDict old_full_data.record_items) p.1).isSome then none
      else some (none, some p.2)),
   marketRatioOf new_full_data)

/-- Lines 433-434: `if not isinstance(total_market_ratio, (int, float)) or
total_market_ratio == 0: total_market_ratio = 1`. -/
def sanitizeDenom (v : PyVal) : ℚ :=
  match v with
  | PyVal.num q => if q = 0 then 1 else q
  | _ => 1

/-- The old record's `total_ratio`, or `0` when absent (line 459). -/
def oldTotalOf (p : Option Record × Option Record) : ℚ :=
  (p.1.map Record.ratioTotal).getD 0

/-- The new record's `total_ratio`, or `0` when absent (line 460). -/
def newTotalOf (p : Option Record × Option Record) : ℚ :=
  (p.2.map Record.ratioTotal).getD 0

/-- Line 474: `old_ratio_percent = old_total_ratio / total_market_ratio * 100`
with the sanitized denominator. -/
def oldPct (v : PyVal) (p : Option Record × Option Record) : ℚ :=
  oldTotalOf p / sanitizeDenom v * 100

/-- Line 475: `new_ratio_percent = new_total_ratio / total_market_ratio * 100`
with the sanitized denominator. -/
def newPct (v : PyVal) (p : Option Record × Option Record) : ℚ :=
  newTotalOf p / sanitizeDenom v * 100

/-- The four change classifications (lines 486-494). -/
inductive ChangeType where
  | OPEN
  | CLOSE
  | BUY
  | SELL
deriving DecidableEq

/-- Lines 445-452: the display name comes from the new record when present,
else the old one, else the defaults. -/
def nameOf (p : Option Record × Option Record) : String :=
  match p.2, p.1 with
  | some n, _ => n.stock_name
  | none, some o => o.stock_name
  | none, none => ""

/-- Raw stock code before the market suffix (lines 445-452). -/
def rawCodeOf (p : Option Record × Option Record) : String :=
  match p.2, p.1 with
  | some n, _ => n.stock_code
  | none, some o => o.stock_code
  | none, none => "UNKNOWN"

/-- Market code (lines 445-452), default `0`. -/
def marketOf (p : Option Record × Option Record) : ℤ :=
  match p.2, p.1 with
  | some n, _ => n.market
  | none, some o => o.market
  | none, none => 0

/-- Lines 454-456: the `.HK` assignment at line 454 is immediately
overwritten by line 455, so only the `.US` suffix for `market == 2`
survives. -/
def codeOf (p : Option Record × Option Record) : String :=
  rawCodeOf p ++ (if marketOf p = 2 then ".US" else "")

/-- Lines 462-466: reference trade price, from the new record when present,
else the old one, scaled down by `10^9`; `0` when both absent. -/
def displayPrice (p : Option Record × Option Record) : ℚ :=
  match p.2, p.1 with
  | some n, _ => n.current_price / 10 ^ 9
  | none, some o => o.current_price / 10 ^ 9
  | none, none => 0

/-- Lines 468-472: reference cost price, same selection rule.  (When both
records are absent the Python name stays unbound, but such a pair always
has a zero ratio delta and is filtered out at line 477 before the name is
read, so the `0` default here is never observable.) -/
def displayCost (p : Option Record × Option Record) : ℚ :=
  match p.2, p.1 with
  | some n, _ => n.cost_price / 10 ^ 9
  | none, some o => o.cost_price / 10 ^ 9
  | none, none => 0

/-- One element of the `changes` list built at lines 505-513. -/
structure ChangeEntry where
  stock_code : String
  stock_name : String
  old_ratio_percent : ℚ
  new_ratio_percent : ℚ
  current_price : ℚ
  cost_price : ℚ
  change_type : ChangeType
deriving DecidableEq

/-- Lines 483-494: the change classification — OPEN when the old record is
absent (line 486), CLOSE when the new record is absent (line 489), else
BUY exactly when `new_total_ratio > old_total_ratio` (line 494),
otherwise SELL. -/
def classifyOf (p : Option Record × Option Record) : ChangeType :=
  match p with
  | (none, _) => ChangeType.OPEN
  | (_, none) => ChangeType.CLOSE
  | (some o, some n) =>
    if o.ratioTotal < n.ratioTotal then ChangeType.BUY else ChangeType.SELL

/-- Lines 436-514, loop body of `generate_change_data` for one diff pair:
skip the pair when `|new_ratio_percent - old_ratio_percent| < 1`
(line 477), otherwise build the change entry, classifying OPEN when the
old record is absent, CLOSE when the new record is absent, and otherwise
BUY exactly when `new_total_ratio > old_total_ratio` (line 494). -/
def processPair (v : PyVal) (p : Option Record × Option Record) :
    Option ChangeEntry :=
  if pyAbs (newPct v p - oldPct v p) < 1 then none
  else some
    { stock_code := codeOf p
      stock_name := nameOf p
      old_ratio_percent := round2 (oldPct v p)
      new_ratio_percent := round2 (newPct v p)
      current_price := round2 (displayPrice p)
      cost_price := round2 (displayCost p)
      change_type := classifyOf p }

/-- The structured `json_output` of `generate_change_data` (lines 532-536),
restricted to the fields consumed downstream: the sanitized market ratio
and the change entries. -/
structure JsonOutput where
  market_denom : ℚ
  changes : List ChangeEntry
deriving DecidableEq

/-- Lines 425-538, `generate_change_data`: process every diff pair; when no
entry survives the materiality filter the function returns `None`
(line 516), else the structured output. -/
def generate_change_data (changed_items : List (Option Record × Option Record))
    (v : PyVal) : Option JsonOutput :=
  if changed_items.filterMap (processPair v) = [] then none
  else some ⟨sanitizeDenom v, changed_items.filterMap (processPair v)⟩

/-! ### `track_and_trade` (lines 204-318) -/

/-- The outcome of one loop iteration of `track_and_trade` for one change:
skipped by the dead-band `continue` (line 239-240), an order, or the
final "no adjustment needed" branch (line 317-318). -/
inductive TradeAction where
  | skip
  | hold
  | buy (q : ℤ)
  | sell (q : ℤ)
deriving DecidableEq

/-- Whether the action submits an order. -/
def TradeAction.isOrder : TradeAction → Bool
  | buy _ => true
  | sell _ => true
  | _ => false

/-- Line 243: `int(usd_balance * target_ratio / current_price) if
current_price > 0 else 0`, with `target_ratio = pct / 100`. -/
def targetQtyOf (balance pct price : ℚ) : ℤ :=
  if 0 < price then pyInt (balance * (pct / 100) / price) else 0

/-- Lines 236-318, the per-change decision of `track_and_trade`:
`target_ratio = new_ratio_percent / 100`, `current_ratio = current_qty *
current_price / usd_balance`; entries inside the `0.05` dead-band are
skipped (lines 239-240) BEFORE any change-type dispatch; then the OPEN,
CLOSE, BUY, SELL branches in source order. -/
def trackDecision (balance : ℚ) (ct : ChangeType) (pct : ℚ) (qty : ℤ)
    (price : ℚ) : TradeAction :=
  if pyAbs ((qty : ℚ) * price / balance - pct / 100) < 5 / 100 then TradeAction.skip
  else if ct = ChangeType.OPEN ∧ 0 < targetQtyOf balance pct price ∧ qty = 0 then
    TradeAction.buy (targetQtyOf balance pct price)
  else if ct = ChangeType.CLOSE ∧ 0 < qty then TradeAction.sell qty
  else if ct = ChangeType.BUY ∧ 0 < targetQtyOf balance pct price - qty then
    TradeAction.buy (targetQtyOf balance pct price - qty)
  else if ct = ChangeType.SELL ∧ targetQtyOf balance pct price - qty < 0 then
    TradeAction.sell (pyAbsInt (targetQtyOf balance pct price - qty))
  else TradeAction.hold

/-- Lines 219-318, the change loop of `track_and_trade`.  `submit` models
`submit_order` (which re-raises after retry exhaustion); there is no
`try`/`except` around it in the loop, so a raised failure aborts the loop.
`posQty` models the held available quantity per symbol (0 when no
position), `quote` the freshest quote price before the `round(·, 2)`.
Returns the symbols whose loop iteration ran, and the escaped exception
if any. -/
def track_and_trade {ε : Type} (submit : String → Except ε Unit) (balance : ℚ)
    (posQty : String → ℤ) (quote : String → ℚ) :
    List ChangeEntry → List String × Option ε
  | [] => ([], none)
  | c :: rest =>
    if (trackDecision balance c.change_type c.new_ratio_percent
        (posQty c.stock_code) (round2 (quote c.stock_code))).isOrder then
      match submit c.stock_code with
      | Except.error e => ([c.stock_code], some e)
      | Except.ok _ =>
        ((c.stock_code :: (track_and_trade submit balance posQty quote rest).1),
         (track_and_trade submit balance posQty quote rest).2)
    else
      ((c.stock_code :: (track_and_trade submit balance posQty quote rest).1),
       (track_and_trade submit balance posQty quote rest).2)

/-! ### `check_and_trade` (lines 143-202) -/

/-- Order side. -/
inductive OrderSide where
  | buy
  | sell
deriving DecidableEq

/-- A submitted order: side, quantity, limit price. -/
structure Order where
  side : OrderSide
  quantity : ℤ
  price : ℚ
deriving DecidableEq

/-- A brokerage position as read by `check_and_trade`. -/
structure Position where
  cost_price : ℚ
  quantity : ℤ
  available_quantity : ℤ
deriving DecidableEq

/-- Lines 155-202, the per-position body of `check_and_trade`: skip when no
available quantity (line 160), round the freshest quote to 2 decimals
(line 168), skip on non-positive price or cost (line 170), then the
stop-loss branch (`loss / balance > lossThr`, full available-quantity
sell) or the take-profit branch (`profit / balance > profitThr`, full
available-quantity sell). -/
def check_and_trade_position (balance lossThr profitThr : ℚ) (pos : Position)
    (quotePrice : ℚ) : Option Order :=
  if pos.available_quantity ≤ 0 then none
  else if ¬(0 < round2 quotePrice ∧ 0 < pos.cost_price) then none
  else if round2 quotePrice < pos.cost_price then
    if lossThr < (pos.cost_price - round2 quotePrice) * (pos.quantity : ℚ) / balance then
      some ⟨OrderSide.sell, pos.available_quantity, round2 quotePrice⟩
    else none
  else if pos.cost_price < round2 quotePrice then
    if profitThr < (round2 quotePrice - pos.cost_price) * (pos.quantity : ℚ) / balance then
      some ⟨OrderSide.sell, pos.available_quantity, round2 quotePrice⟩
    else none
  else none

/-! ### `submit_order` (lines 58-106) -/

/-- Line 74: `max_retries = 3`. -/
def max_retries : ℕ := 3

/-- Line 75: `retry_delay = 5` (seconds slept between attempts). -/
def retry_delay : ℕ := 5

/-- Observable trace of one `submit_order` call: the final outcome
(`none` only if the `for` loop could fall through, which cannot happen
with a positive retry bound), the number of submission attempts, the
number of `time.sleep(retry_delay)` calls, and the number of failure
notifications sent. -/
structure SubmitTrace (ε ρ : Type) where
  outcome : Option (Except ε ρ)
  attempts : ℕ
  sleeps : ℕ
  notifs : ℕ

/-- The `for attempt in range(max_retries)` loop of `submit_order`:
try the collaborator; on success return its response unmodified; on
failure, if this was the last attempt send one notification and re-raise,
otherwise sleep and continue.  `fuel` counts the remaining iterations. -/
def submitLoop {ε ρ : Type} (oracle : ℕ → Except ε ρ) (maxR : ℕ) :
    ℕ → ℕ → SubmitTrace ε ρ
  | 0, _ => ⟨none, 0, 0, 0⟩
  | fuel + 1, attempt =>
    match oracle attempt with
    | Except.ok r => ⟨some (Except.ok r), 1, 0, 0⟩
    | Except.error e =>
      if attempt = maxR - 1 then ⟨some (Except.error e), 1, 0, 1⟩
      else
        ⟨(submitLoop oracle maxR fuel (attempt + 1)).outcome,
         (submitLoop oracle maxR fuel (attempt + 1)).attempts + 1,
         (submitLoop oracle maxR fuel (attempt + 1)).sleeps + 1,
         (submitLoop oracle maxR fuel (attempt + 1)).notifs⟩

/-- Lines 58-106, `submit_order`, with the brokerage call abstracted as
`oracle attempt`. -/
def submit_order {ε ρ : Type} (oracle : ℕ → Except ε ρ) : SubmitTrace ε ρ :=
  submitLoop oracle max_retries max_retries 0

/-! ### `call_trade_api` and one `main`-loop iteration (lines 542-613) -/

/-- The cycle-visible state after one `main`-loop iteration:
the in-memory `last_known_full_data`, whether `save_current_data` wrote
the baseline file, whether the change email was sent, and the
`has_changes` flag. -/
structure CycleResult where
  newLastKnown : FullData
  savedFile : Bool
  notified : Bool
  hasChanges : Bool
deriving DecidableEq

/-- Lines 542-569, `call_trade_api` (with `with_email=True` as in `main`):
diff, generate the change data, and when material changes exist run
`track_and_trade` (abstracted as `exec`, whose uncaught exception
propagates) and send the email; returns `has_changes`. -/
def call_trade_api {ε : Type} (exec : JsonOutput → Except ε Unit)
    (old_full new_full : FullData) : Except ε Bool :=
  if (get_changes old_full new_full).1 = [] then Except.ok false
  else
    match generate_change_data (get_changes old_full new_full).1
        (get_changes old_full new_full).2 with
    | none => Except.ok false
    | some j =>
      match exec j with
      | Except.error e => Except.error e
      | Except.ok _ => Except.ok true

/-- Lines 588-610, the comparison/processing part of one `main`-loop
iteration, given an already-fetched snapshot `current`: bootstrap-save
when no baseline exists; skip the cycle when the `record_items` compare
structurally equal; otherwise run `call_trade_api`, saving the file only
when `has_changes`, and replace the in-memory baseline by `current`
unconditionally.  An exception escaping `call_trade_api` is uncaught in
`main` and hence fatal (the `Except.error` result). -/
def mainCycle {ε : Type} (exec : JsonOutput → Except ε Unit)
    (last : Option FullData) (current : FullData) : Except ε CycleResult :=
  match last with
  | none => Except.ok ⟨current, true, false, false⟩
  | some l =>
    if l.record_items = current.record_items then Except.ok ⟨l, false, false, false⟩
    else
      match call_trade_api exec l current with
      | Except.error e => Except.error e
      | Except.ok has => Except.ok ⟨current, has, has, has⟩

/-! ### Bridge lemmas: the explicit Python `abs` equals the order-theoretic one -/

theorem pyAbs_eq_abs (q : ℚ) : pyAbs q = |q| := by
  unfold pyAbs
  split
  · rename_i h
    rw [abs_of_neg h]
  · rename_i h
    rw [abs_of_nonneg (le_of_not_lt h)]

theorem pyAbsInt_eq_abs (i : ℤ) : pyAbsInt i = |i| := by
  unfold pyAbsInt
  split
  · rename_i h
    rw [abs_of_neg h]
  · rename_i h
    rw [abs_of_nonneg (le_of_not_lt h)]

/-- `round(q, 2)` is the identity on integers. -/
theorem round2_intCast (n : ℤ) : round2 (n : ℚ) = (n : ℚ) := by
  have h : ((n : ℚ) * 100) = ((n * 100 : ℤ) : ℚ) := by push_cast; ring
  unfold round2 roundHalfEven
  rw [h, Int.floor_intCast]
  rw [if_pos (by rw [sub_self]; norm_num)]
  push_cast
  ring

/-- `int()` is the identity on integers. -/
theorem pyInt_intCast (n : ℤ) : pyInt (n : ℚ) = n := by
  unfold pyInt
  split
  · exact Int.floor_intCast n
  · exact Int.ceil_intCast n

/-! ### Helper lemmas about the insertion-ordered dict -/

theorem dictKeys_dictInsert (d : List (String × Record)) (k : String) (v : Record) :
    dictKeys (dictInsert d k v) =
      if k ∈ dictKeys d then dictKeys d else dictKeys d ++ [k] := by
  unfold dictInsert dictKeys
  split
  · simp only [List.map_map]
    refine List.map_congr_left ?_
    intro p _
    by_cases h : p.1 = k
    · simp [h]
    · simp [h]
  · simp

theorem dictKeys_nodup_dictInsert (d : List (String × Record)) (k : String)
    (v : Record) (h : (dictKeys d).Nodup) : (dictKeys (dictInsert d k v)).Nodup := by
  rw [dictKeys_dictInsert]
  split
  · exact h
  · rename_i hk
    rw [List.nodup_append]
    exact ⟨h, List.nodup_singleton k, by simpa [List.disjoint_singleton] using hk⟩

theorem buildDict_keys_nodup (l : List Record) : (dictKeys (buildDict l)).Nodup := by
  unfold buildDict
  have key : ∀ (l : List Record) (init : List (String × Record)),
      (dictKeys init).Nodup →
      (dictKeys (l.foldl (fun d r => dictInsert d r.stock_code r) init)).Nodup := by
    intro l
    induction l with
    | nil => intro init h; simpa using h
    | cons r rest ih =>
      intro init h
      simp only [List.foldl_cons]
      exact ih _ (dictKeys_nodup_dictInsert _ _ _ h)
  exact key l [] (by simp [dictKeys])

theorem dictLookup_mem (d : List (String × Record)) (h : (dictKeys d).Nodup)
    (p : String × Record) (hp : p ∈ d) : dictLookup d p.1 = some p.2 := by
  induction d with
  | nil => cases hp
  | cons q rest ih =>
    simp only [dictKeys, List.map_cons, List.nodup_cons] at h
    rcases List.mem_cons.mp hp with rfl | hmem
    · simp [dictLookup]
    · have hne : q.1 ≠ p.1 := by
        intro he
        exact h.1 (he ▸ List.mem_map.mpr ⟨p, hmem, rfl⟩)
      simp only [dictLookup, if_neg hne]
      exact ih h.2 hmem

/-- Members of a key-nodup dict look themselves up. -/
theorem buildDict_self_lookup (l : List Record) (p : String × Record)
    (hp : p ∈ buildDict l) : dictLookup (buildDict l) p.1 = some p.2 :=
  dictLookup_mem _ (buildDict_keys_nodup l) p hp

/-- C8: diffing a snapshot against itself yields the empty change list,
hence `generate_change_data` produces no `ChangeEntry` at all (it returns
`None`), and a `main` cycle whose fetched data equals the baseline
neither rewrites the baseline file nor notifies nor replaces the
in-memory baseline. -/
theorem get_changes_self_noop {ε : Type} (exec : JsonOutput → Except ε Unit)
    (d : FullData) (v : PyVal) :
    (get_changes d d).1 = [] ∧
    generate_change_data (get_changes d d).1 v = none ∧
    mainCycle exec (some d) d = Except.ok ⟨d, false, false, false⟩ := by
  have hempty : (get_changes d d).1 = [] := by
    unfold get_changes
    rw [List.append_eq_nil]
    constructor
    · rw [List.filterMap_eq_nil_iff]
      intro p hp
      rw [buildDict_self_lookup _ p hp]
      simp
    · rw [List.filterMap_eq_nil_iff]
      intro p hp
      rw [buildDict_self_lookup _ p hp]
      simp
  refine ⟨hempty, ?_, ?_⟩
  · rw [hempty]
    simp [generate_change_data]
  · simp [mainCycle]

/-- C5: the diff's market ratio slot is read from the NEW snapshot's
market-level `ratio` field, defaulting to `1` when `market_items` is
absent/empty; the denominator used by `generate_change_data` is the
sanitized value, which maps `0`, `None` and non-numeric values to `1` and
is therefore never zero, so `old_ratio_percent`/`new_ratio_percent` never
divide by zero. -/
theorem market_denominator_never_zero (old_full new_full : FullData) (v : PyVal) :
    (get_changes old_full new_full).2 = marketRatioOf new_full ∧
    (new_full.market_items = [] → marketRatioOf new_full = PyVal.num 1) ∧
    sanitizeDenom (PyVal.num 0) = 1 ∧
    sanitizeDenom PyVal.pynone = 1 ∧
    sanitizeDenom PyVal.nonNum = 1 ∧
    sanitizeDenom v ≠ 0 := by
  refine ⟨rfl, ?_, rfl, rfl, rfl, ?_⟩
  · intro h
    unfold marketRatioOf
    rw [h]
  · unfold sanitizeDenom
    match v with
    | PyVal.pynone => exact one_ne_zero
    | PyVal.nonNum => exact one_ne_zero
    | PyVal.num q =>
      by_cases hq : q = 0
      · simp [hq]
      · simp [hq]

/-- Witness for `market_denominator_never_zero` at a concrete snapshot pair
whose new snapshot has no `market_items` and a concrete non-numeric ratio
value. -/
theorem market_denominator_never_zero_witness :
    (get_changes ⟨[], []⟩ ⟨[], []⟩).2 = marketRatioOf ⟨[], []⟩ ∧
    marketRatioOf ⟨[], []⟩ = PyVal.num 1 ∧
    sanitizeDenom PyVal.nonNum ≠ 0 := by
  have h := market_denominator_never_zero ⟨[], []⟩ ⟨[], []⟩ PyVal.nonNum
  exact ⟨h.1, h.2.1 rfl, h.2.2.2.2.2⟩

/-- C7: `generate_change_data` skips a diff pair exactly when
`|new_ratio_percent - old_ratio_percent| < 1`; any pair at or above the
1-percentage-point threshold yields a change entry, and in particular a
concrete pair with a 1.5-point delta (10% -> 11.5%) is included. -/
theorem materiality_filter (v : PyVal) (p : Option Record × Option Record) :
    (processPair v p = none ↔ |newPct v p - oldPct v p| < 1) ∧
    (processPair (PyVal.num 100)
      (some ⟨"B", "BBB", 0, 10, 10 ^ 9, 10 ^ 9⟩,
       some ⟨"B", "BBB", 0, 23 / 2, 10 ^ 9, 10 ^ 9⟩)).isSome = true := by
  constructor
  · rw [← pyAbs_eq_abs]
    unfold processPair
    split
    · rename_i h
      simp [h]
    · rename_i h
      simp [h]
  · have hd : newPct (PyVal.num 100)
        (some ⟨"B", "BBB", 0, 10, 10 ^ 9, 10 ^ 9⟩,
         some ⟨"B", "BBB", 0, 23 / 2, 10 ^ 9, 10 ^ 9⟩) -
        oldPct (PyVal.num 100)
        (some ⟨"B", "BBB", 0, 10, 10 ^ 9, 10 ^ 9⟩,
         some ⟨"B", "BBB", 0, 23 / 2, 10 ^ 9, 10 ^ 9⟩) = 3 / 2 := by
      norm_num [newPct, oldPct, newTotalOf, oldTotalOf, sanitizeDenom]
    unfold processPair
    rw [if_neg]
    · rfl
    · rw [hd]
      norm_num [pyAbs]

/-- Witness for `materiality_filter`: at a pair with equal old and new
records the ratio delta is `0 < 1`, so the pair is skipped. -/
theorem materiality_filter_witness :
    processPair (PyVal.num 1)
      (some ⟨"A", "AAA", 0, 7, 0, 0⟩, some ⟨"A", "AAA", 0, 7, 0, 0⟩) = none := by
  have h := materiality_filter (PyVal.num 1)
    (some ⟨"A", "AAA", 0, 7, 0, 0⟩, some ⟨"A", "AAA", 0, 7, 0, 0⟩)
  refine h.1.mpr ?_
  have hd : newPct (PyVal.num 1)
      (some ⟨"A", "AAA", 0, 7, 0, 0⟩, some ⟨"A", "AAA", 0, 7, 0, 0⟩) -
      oldPct (PyVal.num 1)
      (some ⟨"A", "AAA", 0, 7, 0, 0⟩, some ⟨"A", "AAA", 0, 7, 0, 0⟩) = 0 := by
    norm_num [newPct, oldPct, newTotalOf, oldTotalOf, sanitizeDenom]
  rw [hd]
  norm_num

/-- Percent comparison reduces to raw-ratio comparison for a positive
denominator. -/
theorem pct_lt_iff (d : ℚ) (hd : 0 < d) (a b : ℚ) :
    a / d * 100 < b / d * 100 ↔ a < b := by
  rw [mul_lt_mul_right (by norm_num : (0 : ℚ) < 100), div_lt_div_iff_of_pos_right hd]

/-- C6 (counterexample): with the reachable market ratio `-1`, the pair
`total_ratio 3 -> 1` has `oldRatioPercent = -300 < newRatioPercent = -100`
(so the claim's rule `newRatioPercent > oldRatioPercent -> BUY` demands
BUY), yet line 494 compares the raw `total_ratio` values and classifies
SELL. -/
theorem classification_counterexample :
    ((processPair (PyVal.num (-1))
        (some ⟨"X", "AAA", 0, 3, 0, 0⟩, some ⟨"X", "AAA", 0, 1, 0, 0⟩)).map
      ChangeEntry.change_type = some ChangeType.SELL) ∧
    oldPct (PyVal.num (-1)) (some ⟨"X", "AAA", 0, 3, 0, 0⟩, some ⟨"X", "AAA", 0, 1, 0, 0⟩) <
      newPct (PyVal.num (-1)) (some ⟨"X", "AAA", 0, 3, 0, 0⟩, some ⟨"X", "AAA", 0, 1, 0, 0⟩) ∧
    ChangeType.SELL ≠ ChangeType.BUY := by
  refine ⟨?_, ?_, by decide⟩
  · have hd : newPct (PyVal.num (-1))
        (some ⟨"X", "AAA", 0, 3, 0, 0⟩, some ⟨"X", "AAA", 0, 1, 0, 0⟩) -
        oldPct (PyVal.num (-1))
        (some ⟨"X", "AAA", 0, 3, 0, 0⟩, some ⟨"X", "AAA", 0, 1, 0, 0⟩) = 200 := by
      norm_num [newPct, oldPct, newTotalOf, oldTotalOf, sanitizeDenom]
    unfold processPair
    rw [if_neg]
    · norm_num [classifyOf]
    · rw [hd]
      norm_num [pyAbs]
  · norm_num [newPct, oldPct, newTotalOf, oldTotalOf, sanitizeDenom]

/-- C6 (amended): for every pair surviving the materiality filter the
classification is total and unambiguous — no old record gives OPEN, no
new record gives CLOSE, and otherwise the entry is BUY exactly when the
raw `new total_ratio` exceeds the raw `old total_ratio` (line 494); this
agrees with the claimed `newRatioPercent > oldRatioPercent` comparison
whenever the sanitized market denominator is positive. -/
theorem classification_amended (v : PyVal) (p : Option Record × Option Record)
    (e : ChangeEntry) (o n : Record) (h : processPair v p = some e) :
    e.change_type = classifyOf p ∧
    (p = (some o, some n) → 0 < sanitizeDenom v →
      (e.change_type = ChangeType.BUY ↔ oldPct v p < newPct v p)) := by
  unfold processPair at h
  by_cases hc : pyAbs (newPct v p - oldPct v p) < 1
  · rw [if_pos hc] at h
    exact absurd h (by simp)
  · rw [if_neg hc] at h
    have he := Option.some.inj h
    subst he
    constructor
    · rfl
    · intro hp hd
      subst hp
      show classifyOf (some o, some n) = ChangeType.BUY ↔ _
      unfold classifyOf
      unfold oldPct newPct oldTotalOf newTotalOf
      simp only [Option.map_some', Option.getD_some]
      rw [pct_lt_iff _ hd]
      split
      · rename_i hlt
        simp [hlt]
      · rename_i hlt
        simp [hlt]

/-- Witness for `classification_amended` at a concrete BUY pair
(`total_ratio 10 -> 30`, market ratio `1`). -/
theorem classification_amended_witness :
    (⟨"AAA", "A", 1000, 3000, 0, 0, ChangeType.BUY⟩ : ChangeEntry).change_type =
      classifyOf (some ⟨"A", "AAA", 0, 10, 0, 0⟩, some ⟨"A", "AAA", 0, 30, 0, 0⟩) ∧
    ((⟨"AAA", "A", 1000, 3000, 0, 0, ChangeType.BUY⟩ : ChangeEntry).change_type =
        ChangeType.BUY ↔
      oldPct (PyVal.num 1) (some ⟨"A", "AAA", 0, 10, 0, 0⟩, some ⟨"A", "AAA", 0, 30, 0, 0⟩) <
        newPct (PyVal.num 1) (some ⟨"A", "AAA", 0, 10, 0, 0⟩, some ⟨"A", "AAA", 0, 30, 0, 0⟩)) := by
  have h : processPair (PyVal.num 1)
      (some ⟨"A", "AAA", 0, 10, 0, 0⟩, some ⟨"A", "AAA", 0, 30, 0, 0⟩) =
      some ⟨"AAA", "A", 1000, 3000, 0, 0, ChangeType.BUY⟩ := by
    have hd : newPct (PyVal.num 1)
        (some ⟨"A", "AAA", 0, 10, 0, 0⟩, some ⟨"A", "AAA", 0, 30, 0, 0⟩) -
        oldPct (PyVal.num 1)
        (some ⟨"A", "AAA", 0, 10, 0, 0⟩, some ⟨"A", "AAA", 0, 30, 0, 0⟩) = 2000 := by
      norm_num [newPct, oldPct, newTotalOf, oldTotalOf, sanitizeDenom]
    have hcl : classifyOf
        (some ⟨"A", "AAA", 0, 10, 0, 0⟩, some ⟨"A", "AAA", 0, 30, 0, 0⟩) =
        ChangeType.BUY := by
      norm_num [classifyOf]
    unfold processPair
    rw [if_neg]
    · norm_num [newPct, oldPct, newTotalOf, oldTotalOf, sanitizeDenom, codeOf,
        rawCodeOf, nameOf, marketOf, displayPrice, displayCost, round2, roundHalfEven,
        hcl]
    · rw [hd]
      norm_num [pyAbs]
  have hmain := classification_amended (PyVal.num 1)
    (some ⟨"A", "AAA", 0, 10, 0, 0⟩, some ⟨"A", "AAA", 0, 30, 0, 0⟩)
    ⟨"AAA", "A", 1000, 3000, 0, 0, ChangeType.BUY⟩
    ⟨"A", "AAA", 0, 10, 0, 0⟩ ⟨"A", "AAA", 0, 30, 0, 0⟩ h
  exact ⟨hmain.1, hmain.2 rfl (by norm_num [sanitizeDenom])⟩

/-- C1 (counterexample): an OPEN entry at 3% target with zero holding
(`current_ratio = 0`, so `|0 - 0.03| = 0.03 < 0.05`) is skipped by the
dead-band `continue` at lines 239-240, which runs BEFORE the OPEN special
case at line 257 — it does not produce the full-target buy of
`targetQtyOf 10000 3 10 = 30` shares the claim requires. -/
theorem deadband_counterexample :
    trackDecision 10000 ChangeType.OPEN 3 0 10 = TradeAction.skip ∧
    trackDecision 10000 ChangeType.OPEN 3 0 10 ≠
      TradeAction.buy (targetQtyOf 10000 3 10) ∧
    targetQtyOf 10000 3 10 = 30 := by
  have htq : targetQtyOf 10000 3 10 = 30 := by
    norm_num [targetQtyOf, pyInt]
  have hskip : trackDecision 10000 ChangeType.OPEN 3 0 10 = TradeAction.skip := by
    unfold trackDecision
    rw [if_pos]
    norm_num [pyAbs]
  refine ⟨hskip, ?_, htq⟩
  rw [hskip, htq]
  decide

/-- C1 (amended): the 5-percentage-point dead-band check applies to EVERY
change entry, OPEN and CLOSE included: any entry with
`|currentRatio - targetRatio| < 0.05` is skipped.  An OPEN entry that
passes the dead-band with zero current quantity and positive computed
target quantity produces a buy of the full target quantity, and a CLOSE
entry that passes the dead-band with positive current quantity produces a
sell of the full current holding. -/
theorem deadband_amended (b pct price : ℚ) (ct : ChangeType) (q : ℤ) :
    (|(q : ℚ) * price / b - pct / 100| < 5 / 100 →
      trackDecision b ct pct q price = TradeAction.skip) ∧
    (¬ |(q : ℚ) * price / b - pct / 100| < 5 / 100 →
      ((ct = ChangeType.OPEN → q = 0 → 0 < targetQtyOf b pct price →
        trackDecision b ct pct q price = TradeAction.buy (targetQtyOf b pct price)) ∧
       (ct = ChangeType.CLOSE → 0 < q →
        trackDecision b ct pct q price = TradeAction.sell q))) := by
  rw [← pyAbs_eq_abs]
  unfold trackDecision
  constructor
  · intro h
    rw [if_pos h]
  · intro h
    rw [if_neg h]
    constructor
    · intro h1 h2 h3
      rw [if_pos ⟨h1, h3, h2⟩]
    · intro h1 h2
      have hno : ¬(ct = ChangeType.OPEN ∧ 0 < targetQtyOf b pct price ∧ q = 0) := by
        simp [h1]
      rw [if_neg hno, if_pos ⟨h1, h2⟩]

/-- Witness for `deadband_amended`: a BUY entry inside the dead-band is
skipped; an OPEN entry at 10% with zero holding buys the full 100-share
target; a CLOSE entry at 10% with 5 held shares sells all 5. -/
theorem deadband_amended_witness :
    trackDecision 10000 ChangeType.BUY 1 0 10 = TradeAction.skip ∧
    trackDecision 10000 ChangeType.OPEN 10 0 10 =
      TradeAction.buy (targetQtyOf 10000 10 10) ∧
    trackDecision 10000 ChangeType.CLOSE 10 5 10 = TradeAction.sell 5 := by
  refine ⟨(deadband_amended 10000 1 10 ChangeType.BUY 0).1 ?_,
    ((deadband_amended 10000 10 10 ChangeType.OPEN 0).2 ?_).1 rfl rfl ?_,
    ((deadband_amended 10000 10 10 ChangeType.CLOSE 5).2 ?_).2 rfl (by norm_num)⟩
  · rw [← pyAbs_eq_abs]
    norm_num [pyAbs]
  · rw [← pyAbs_eq_abs]
    norm_num [pyAbs]
  · norm_num [targetQtyOf, pyInt]
  · rw [← pyAbs_eq_abs]
    norm_num [pyAbs]

/-- C9: for the position `costPrice=100, quantity=50, availableQuantity=50`
at `currentPrice=90` with `balance=10000`, `lossThreshold=0.01`,
`profitThreshold=0.04`, the scan computes `loss = (100-90)*50 = 500`,
finds `500/10000 = 0.05 > 0.01`, and submits exactly one full-position
sell of the 50 available shares at 90; in general at most one exit order
is produced per position per cycle, and a position with non-positive
(rounded) current price or non-positive cost basis yields no order. -/
theorem stop_loss_exit_check (b lossT profitT : ℚ) (pos : Position) (qp : ℚ) :
    check_and_trade_position 10000 (1 / 100) (1 / 25) ⟨100, 50, 50⟩ 90 =
      some ⟨OrderSide.sell, 50, 90⟩ ∧
    ((100 : ℚ) - 90) * 50 = 500 ∧
    (500 : ℚ) / 10000 = 5 / 100 ∧
    (check_and_trade_position b lossT profitT pos qp).toList.length ≤ 1 ∧
    ((round2 qp ≤ 0 ∨ pos.cost_price ≤ 0) →
      check_and_trade_position b lossT profitT pos qp = none) := by
  have h90 : round2 (90 : ℚ) = 90 := by
    have h := round2_intCast 90
    norm_num at h
    exact h
  refine ⟨?_, by norm_num, by norm_num, ?_, ?_⟩
  · norm_num [check_and_trade_position, h90]
  · cases check_and_trade_position b lossT profitT pos qp <;> simp
  · intro h
    unfold check_and_trade_position
    by_cases ha : pos.available_quantity ≤ 0
    · rw [if_pos ha]
    · rw [if_neg ha]
      have hng : ¬(0 < round2 qp ∧ 0 < pos.cost_price) := by
        rcases h with h | h
        · intro hcon
          linarith [hcon.1]
        · intro hcon
          linarith [hcon.2]
      rw [if_pos hng]

/-- Witness for `stop_loss_exit_check`: the scenario itself, plus the
degenerate position with negative cost basis yielding no order. -/
theorem stop_loss_exit_check_witness :
    check_and_trade_position 10000 (1 / 100) (1 / 25) ⟨100, 50, 50⟩ 90 =
      some ⟨OrderSide.sell, 50, 90⟩ ∧
    (check_and_trade_position 1 1 1 ⟨-1, 5, 5⟩ 7).toList.length ≤ 1 ∧
    check_and_trade_position 1 1 1 ⟨-1, 5, 5⟩ 7 = none := by
  have h := stop_loss_exit_check 1 1 1 ⟨-1, 5, 5⟩ 7
  exact ⟨h.1, h.2.2.2.1, h.2.2.2.2 (Or.inr (by norm_num))⟩

/-- C3: against a collaborator failing on every attempt, `submit_order`
makes exactly `max_retries = 3` attempts, sleeps the fixed
`retry_delay = 5` seconds exactly twice, sends exactly one failure
notification, and re-raises the final failure to the caller; and a first
success after `k` failures short-circuits at attempt `k+1` with `k`
sleeps, no notification, and the collaborator's response returned
unmodified. -/
theorem retry_bound {ε ρ : Type} (f : ℕ → ε) (oracle : ℕ → Except ε ρ) (k : ℕ)
    (r : ρ) (hk : k < max_retries)
    (hfail : ∀ j, j < k → ∃ e, oracle j = Except.error e)
    (hsucc : oracle k = Except.ok r) :
    (submit_order (fun n => (Except.error (f n) : Except ε ρ))).outcome =
      some (Except.error (f 2)) ∧
    (submit_order (fun n => (Except.error (f n) : Except ε ρ))).attempts = 3 ∧
    (submit_order (fun n => (Except.error (f n) : Except ε ρ))).sleeps = 2 ∧
    (submit_order (fun n => (Except.error (f n) : Except ε ρ))).notifs = 1 ∧
    retry_delay = 5 ∧
    submit_order oracle = ⟨some (Except.ok r), k + 1, k, 0⟩ := by
  have hk3 : k < 3 := by simpa [max_retries] using hk
  refine ⟨rfl, rfl, rfl, rfl, rfl, ?_⟩
  interval_cases k
  · simp [submit_order, submitLoop, max_retries, hsucc]
  · obtain ⟨e0, h0⟩ := hfail 0 (by norm_num)
    simp [submit_order, submitLoop, max_retries, h0, hsucc]
  · obtain ⟨e0, h0⟩ := hfail 0 (by norm_num)
    obtain ⟨e1, h1⟩ := hfail 1 (by norm_num)
    simp [submit_order, submitLoop, max_retries, h0, h1, hsucc]

/-- Witness for `retry_bound`: the full trace of the always-failing oracle, and
an immediately-successful oracle returning its response after one attempt. -/
theorem retry_bound_witness :
    (submit_order (fun n => (Except.error n : Except ℕ ℕ))).outcome =
      some (Except.error 2) ∧
    (submit_order (fun n => (Except.error n : Except ℕ ℕ))).attempts = 3 ∧
    (submit_order (fun n => (Except.error n : Except ℕ ℕ))).sleeps = 2 ∧
    (submit_order (fun n => (Except.error n : Except ℕ ℕ))).notifs = 1 ∧
    retry_delay = 5 ∧
    submit_order (fun _ => (Except.ok 5 : Except ℕ ℕ)) =
      ⟨some (Except.ok 5), 0 + 1, 0, 0⟩ :=
  retry_bound (fun n => n) (fun _ => (Except.ok 5 : Except ℕ ℕ)) 0 5
    (by norm_num [max_retries]) (fun j hj => absurd hj (Nat.not_lt_zero j)) rfl

/-- C4: in a cycle with an existing baseline, the baseline file is written
(`savedFile`) exactly when the fetched `record_items` differ structurally
from the baseline AND change processing completed with `has_changes`
true; a cycle whose fetched `record_items` equal the baseline's triggers
neither a baseline write nor a notification; and when no baseline exists
the fetched snapshot is persisted unconditionally. -/
theorem baseline_policy {ε : Type} (exec : JsonOutput → Except ε Unit)
    (l cur : FullData) (r : CycleResult) :
    (mainCycle exec (some l) cur = Except.ok r →
      (r.savedFile = true ↔
        (l.record_items ≠ cur.record_items ∧ r.hasChanges = true))) ∧
    (l.record_items = cur.record_items →
      mainCycle exec (some l) cur = Except.ok ⟨l, false, false, false⟩) ∧
    mainCycle exec none cur = Except.ok ⟨cur, true, false, false⟩ := by
  refine ⟨?_, ?_, rfl⟩
  · intro h
    simp only [mainCycle] at h
    by_cases hrec : l.record_items = cur.record_items
    · rw [if_pos hrec] at h
      have he := Except.ok.inj h
      subst he
      simp [hrec]
    · rw [if_neg hrec] at h
      cases hc : call_trade_api exec l cur with
      | error e =>
        rw [hc] at h
        cases h
      | ok has =>
        rw [hc] at h
        have he := Except.ok.inj h
        subst he
        simp [hrec]
  · intro hrec
    simp only [mainCycle]
    rw [if_pos hrec]

/-- Witness for `baseline_policy` at a concrete material change
(`total_ratio 10 -> 40`, market ratio 100): the cycle saves, notifies and
reports changes; the record-identical cycle does nothing; the bootstrap
cycle saves unconditionally. -/
theorem baseline_policy_witness :
    ((⟨⟨[⟨"A", "AAA", 0, 40, 0, 0⟩], [⟨PyVal.num 100⟩]⟩, true, true, true⟩ :
        CycleResult).savedFile = true ↔
      ((⟨[⟨"A", "AAA", 0, 10, 0, 0⟩], [⟨PyVal.num 100⟩]⟩ : FullData).record_items ≠
        (⟨[⟨"A", "AAA", 0, 40, 0, 0⟩], [⟨PyVal.num 100⟩]⟩ : FullData).record_items ∧
       (⟨⟨[⟨"A", "AAA", 0, 40, 0, 0⟩], [⟨PyVal.num 100⟩]⟩, true, true, true⟩ :
        CycleResult).hasChanges = true)) ∧
    mainCycle (fun _ => (Except.ok () : Except Unit Unit))
      (some ⟨[⟨"A", "AAA", 0, 10, 0, 0⟩], [⟨PyVal.num 100⟩]⟩)
      ⟨[⟨"A", "AAA", 0, 10, 0, 0⟩], [⟨PyVal.num 100⟩]⟩ =
      Except.ok ⟨⟨[⟨"A", "AAA", 0, 10, 0, 0⟩], [⟨PyVal.num 100⟩]⟩, false, false, false⟩ ∧
    mainCycle (fun _ => (Except.ok () : Except Unit Unit)) none
      ⟨[⟨"A", "AAA", 0, 40, 0, 0⟩], [⟨PyVal.num 100⟩]⟩ =
      Except.ok ⟨⟨[⟨"A", "AAA", 0, 40, 0, 0⟩], [⟨PyVal.num 100⟩]⟩, true, false, false⟩ := by
  have hne : (⟨"A", "AAA", 0, 10, 0, 0⟩ : Record) ≠ ⟨"A", "AAA", 0, 40, 0, 0⟩ := by
    norm_num
  have hrec : (⟨[⟨"A", "AAA", 0, 10, 0, 0⟩], [⟨PyVal.num 100⟩]⟩ : FullData).record_items ≠
      (⟨[⟨"A", "AAA", 0, 40, 0, 0⟩], [⟨PyVal.num 100⟩]⟩ : FullData).record_items := by
    simp [hne]
  have hgc : (get_changes ⟨[⟨"A", "AAA", 0, 10, 0, 0⟩], [⟨PyVal.num 100⟩]⟩
      ⟨[⟨"A", "AAA", 0, 40, 0, 0⟩], [⟨PyVal.num 100⟩]⟩).1 =
      [(some ⟨"A", "AAA", 0, 10, 0, 0⟩, some ⟨"A", "AAA", 0, 40, 0, 0⟩)] := by
    simp [get_changes, buildDict, dictInsert, dictKeys, dictLookup, hne]
  have h10 : round2 (10 : ℚ) = 10 := by
    have h := round2_intCast 10
    norm_num at h
    exact h
  have h40 : round2 (40 : ℚ) = 40 := by
    have h := round2_intCast 40
    norm_num at h
    exact h
  have h0 : round2 (0 : ℚ) = 0 := by
    have h := round2_intCast 0
    norm_num at h
    exact h
  have hcl : classifyOf (some ⟨"A", "AAA", 0, 10, 0, 0⟩, some ⟨"A", "AAA", 0, 40, 0, 0⟩) =
      ChangeType.BUY := by
    norm_num [classifyOf]
  have hpp : processPair (PyVal.num 100)
      (some ⟨"A", "AAA", 0, 10, 0, 0⟩, some ⟨"A", "AAA", 0, 40, 0, 0⟩) =
      some ⟨"AAA", "A", 10, 40, 0, 0, ChangeType.BUY⟩ := by
    have hd : newPct (PyVal.num 100)
        (some ⟨"A", "AAA", 0, 10, 0, 0⟩, some ⟨"A", "AAA", 0, 40, 0, 0⟩) -
        oldPct (PyVal.num 100)
        (some ⟨"A", "AAA", 0, 10, 0, 0⟩, some ⟨"A", "AAA", 0, 40, 0, 0⟩) = 30 := by
      norm_num [newPct, oldPct, newTotalOf, oldTotalOf, sanitizeDenom]
    unfold processPair
    rw [if_neg]
    · norm_num [newPct, oldPct, newTotalOf, oldTotalOf, sanitizeDenom, codeOf,
        rawCodeOf, nameOf, marketOf, displayPrice, displayCost, h10, h40, h0, hcl]
    · rw [hd]
      norm_num [pyAbs]
  have hgen : generate_change_data
      [(some ⟨"A", "AAA", 0, 10, 0, 0⟩, some ⟨"A", "AAA", 0, 40, 0, 0⟩)]
      (PyVal.num 100) =
      some ⟨100, [⟨"AAA", "A", 10, 40, 0, 0, ChangeType.BUY⟩]⟩ := by
    have hfm : List.filterMap (processPair (PyVal.num 100))
        [(some ⟨"A", "AAA", 0, 10, 0, 0⟩, some ⟨"A", "AAA", 0, 40, 0, 0⟩)] =
        [⟨"AAA", "A", 10, 40, 0, 0, ChangeType.BUY⟩] := by
      simp [List.filterMap_cons, hpp]
    norm_num [generate_change_data, hfm, sanitizeDenom]
  have hcall : call_trade_api (fun _ => (Except.ok () : Except Unit Unit))
      ⟨[⟨"A", "AAA", 0, 10, 0, 0⟩], [⟨PyVal.num 100⟩]⟩
      ⟨[⟨"A", "AAA", 0, 40, 0, 0⟩], [⟨PyVal.num 100⟩]⟩ = Except.ok true := by
    unfold call_trade_api
    rw [if_neg (by rw [hgc]; simp)]
    have hv : (get_changes ⟨[⟨"A", "AAA", 0, 10, 0, 0⟩], [⟨PyVal.num 100⟩]⟩
        ⟨[⟨"A", "AAA", 0, 40, 0, 0⟩], [⟨PyVal.num 100⟩]⟩).2 = PyVal.num 100 := rfl
    rw [hgc, hv, hgen]
  have hcy : mainCycle (fun _ => (Except.ok () : Except Unit Unit))
      (some ⟨[⟨"A", "AAA", 0, 10, 0, 0⟩], [⟨PyVal.num 100⟩]⟩)
      ⟨[⟨"A", "AAA", 0, 40, 0, 0⟩], [⟨PyVal.num 100⟩]⟩ =
      Except.ok ⟨⟨[⟨"A", "AAA", 0, 40, 0, 0⟩], [⟨PyVal.num 100⟩]⟩, true, true, true⟩ := by
    simp only [mainCycle]
    rw [if_neg hrec, hcall]
  have hb := baseline_policy (fun _ => (Except.ok () : Except Unit Unit))
    ⟨[⟨"A", "AAA", 0, 10, 0, 0⟩], [⟨PyVal.num 100⟩]⟩
    ⟨[⟨"A", "AAA", 0, 40, 0, 0⟩], [⟨PyVal.num 100⟩]⟩
    ⟨⟨[⟨"A", "AAA", 0, 40, 0, 0⟩], [⟨PyVal.num 100⟩]⟩, true, true, true⟩
  have hb2 := baseline_policy (fun _ => (Except.ok () : Except Unit Unit))
    ⟨[⟨"A", "AAA", 0, 10, 0, 0⟩], [⟨PyVal.num 100⟩]⟩
    ⟨[⟨"A", "AAA", 0, 10, 0, 0⟩], [⟨PyVal.num 100⟩]⟩
    ⟨⟨[⟨"A", "AAA", 0, 10, 0, 0⟩], [⟨PyVal.num 100⟩]⟩, false, false, false⟩
  have hb3 := baseline_policy (fun _ => (Except.ok () : Except Unit Unit))
    ⟨[⟨"A", "AAA", 0, 10, 0, 0⟩], [⟨PyVal.num 100⟩]⟩
    ⟨[⟨"A", "AAA", 0, 40, 0, 0⟩], [⟨PyVal.num 100⟩]⟩
    ⟨⟨[⟨"A", "AAA", 0, 40, 0, 0⟩], [⟨PyVal.num 100⟩]⟩, true, true, true⟩
  exact ⟨hb.1 hcy, hb2.2.1 rfl, hb3.2.2⟩

/-- C10: whenever the fetched snapshot's `record_items` differ structurally
from the baseline's, the in-memory baseline (`last_known_full_data`,
field `newLastKnown`) is replaced by the fetched snapshot in every
non-crashing cycle — in particular also when the diff yields no material
change entries, in which case the baseline FILE is not rewritten
(`savedFile = false`) yet the in-memory baseline still becomes the
fetched snapshot. -/
theorem inmemory_baseline_update {ε : Type} (exec : JsonOutput → Except ε Unit)
    (l cur : FullData) (r : CycleResult)
    (hrec : l.record_items ≠ cur.record_items) :
    (mainCycle exec (some l) cur = Except.ok r → r.newLastKnown = cur) ∧
    (generate_change_data (get_changes l cur).1 (get_changes l cur).2 = none →
      mainCycle exec (some l) cur = Except.ok ⟨cur, false, false, false⟩) := by
  constructor
  · intro h
    simp only [mainCycle] at h
    rw [if_neg hrec] at h
    cases hc : call_trade_api exec l cur with
    | error e =>
      rw [hc] at h
      cases h
    | ok has =>
      rw [hc] at h
      have he := Except.ok.inj h
      subst he
      rfl
  · intro hgen
    have hcall : call_trade_api exec l cur = Except.ok false := by
      unfold call_trade_api
      by_cases hi : (get_changes l cur).1 = []
      · rw [if_pos hi]
      · rw [if_neg hi, hgen]
    simp only [mainCycle]
    rw [if_neg hrec, hcall]

/-- Witness for `inmemory_baseline_update`: records differ
(`total_ratio 10` vs `10 + 1/200`) but the half-a-percentage-point delta
is immaterial, so the cycle writes nothing yet adopts the fetched
snapshot as the new in-memory baseline. -/
theorem inmemory_baseline_update_witness :
    (⟨⟨[⟨"A", "AAA", 0, 21 / 2, 0, 0⟩], [⟨PyVal.num 100⟩]⟩, false, false, false⟩ :
      CycleResult).newLastKnown =
      (⟨[⟨"A", "AAA", 0, 21 / 2, 0, 0⟩], [⟨PyVal.num 100⟩]⟩ : FullData) ∧
    mainCycle (fun _ => (Except.ok () : Except Unit Unit))
      (some ⟨[⟨"A", "AAA", 0, 10, 0, 0⟩], [⟨PyVal.num 100⟩]⟩)
      ⟨[⟨"A", "AAA", 0, 21 / 2, 0, 0⟩], [⟨PyVal.num 100⟩]⟩ =
      Except.ok ⟨⟨[⟨"A", "AAA", 0, 21 / 2, 0, 0⟩], [⟨PyVal.num 100⟩]⟩,
        false, false, false⟩ := by
  have hne : (⟨"A", "AAA", 0, 10, 0, 0⟩ : Record) ≠ ⟨"A", "AAA", 0, 21 / 2, 0, 0⟩ := by
    norm_num
  have hrec : (⟨[⟨"A", "AAA", 0, 10, 0, 0⟩], [⟨PyVal.num 100⟩]⟩ : FullData).record_items ≠
      (⟨[⟨"A", "AAA", 0, 21 / 2, 0, 0⟩], [⟨PyVal.num 100⟩]⟩ : FullData).record_items := by
    simp [hne]
  have hgc : (get_changes ⟨[⟨"A", "AAA", 0, 10, 0, 0⟩], [⟨PyVal.num 100⟩]⟩
      ⟨[⟨"A", "AAA", 0, 21 / 2, 0, 0⟩], [⟨PyVal.num 100⟩]⟩).1 =
      [(some ⟨"A", "AAA", 0, 10, 0, 0⟩, some ⟨"A", "AAA", 0, 21 / 2, 0, 0⟩)] := by
    simp [get_changes, buildDict, dictInsert, dictKeys, dictLookup, hne]
  have hpp : processPair (PyVal.num 100)
      (some ⟨"A", "AAA", 0, 10, 0, 0⟩, some ⟨"A", "AAA", 0, 21 / 2, 0, 0⟩) = none := by
    have hd : newPct (PyVal.num 100)
        (some ⟨"A", "AAA", 0, 10, 0, 0⟩, some ⟨"A", "AAA", 0, 21 / 2, 0, 0⟩) -
        oldPct (PyVal.num 100)
        (some ⟨"A", "AAA", 0, 10, 0, 0⟩, some ⟨"A", "AAA", 0, 21 / 2, 0, 0⟩) =
        1 / 2 := by
      norm_num [newPct, oldPct, newTotalOf, oldTotalOf, sanitizeDenom]
    unfold processPair
    rw [if_pos (by rw [hd]; norm_num [pyAbs])]
  have hv : (get_changes ⟨[⟨"A", "AAA", 0, 10, 0, 0⟩], [⟨PyVal.num 100⟩]⟩
      ⟨[⟨"A", "AAA", 0, 21 / 2, 0, 0⟩], [⟨PyVal.num 100⟩]⟩).2 = PyVal.num 100 := rfl
  have hgen : generate_change_data
      (get_changes ⟨[⟨"A", "AAA", 0, 10, 0, 0⟩], [⟨PyVal.num 100⟩]⟩
        ⟨[⟨"A", "AAA", 0, 21 / 2, 0, 0⟩], [⟨PyVal.num 100⟩]⟩).1
      (get_changes ⟨[⟨"A", "AAA", 0, 10, 0, 0⟩], [⟨PyVal.num 100⟩]⟩
        ⟨[⟨"A", "AAA", 0, 21 / 2, 0, 0⟩], [⟨PyVal.num 100⟩]⟩).2 = none := by
    rw [hgc, hv]
    simp [generate_change_data, List.filterMap_cons, hpp]
  have h := inmemory_baseline_update (fun _ => (Except.ok () : Except Unit Unit))
    ⟨[⟨"A", "AAA", 0, 10, 0, 0⟩], [⟨PyVal.num 100⟩]⟩
    ⟨[⟨"A", "AAA", 0, 21 / 2, 0, 0⟩], [⟨PyVal.num 100⟩]⟩
    ⟨⟨[⟨"A", "AAA", 0, 21 / 2, 0, 0⟩], [⟨PyVal.num 100⟩]⟩, false, false, false⟩
    hrec
  exact ⟨h.1 (h.2 hgen), h.2 hgen⟩

/-- An OPEN entry at a 1000% target ratio with no holding and price 10
escapes the dead-band and buys the full 10000-share target. -/
theorem open_entry_trade_decision :
    trackDecision 10000 ChangeType.OPEN 1000 0 (round2 10) = TradeAction.buy 10000 := by
  have hr10 : round2 (10 : ℚ) = 10 := by
    have h := round2_intCast 10
    norm_num at h
    exact h
  have htq : targetQtyOf 10000 1000 10 = 10000 := by
    norm_num [targetQtyOf, pyInt]
  rw [hr10]
  unfold trackDecision
  rw [if_neg (by norm_num [pyAbs])]
  rw [if_pos ⟨rfl, by rw [htq]; norm_num, rfl⟩, htq]

/-- Concrete diff-and-generate run: against an empty baseline record list,
the snapshot holding one record at `total_ratio 10` (market ratio 1)
produces exactly one OPEN entry at 1000 percent. -/
theorem open_pair_generation :
    generate_change_data
      (get_changes ⟨[], [⟨PyVal.num 1⟩]⟩
        ⟨[⟨"A", "AAA", 0, 10, 0, 0⟩], [⟨PyVal.num 1⟩]⟩).1
      (get_changes ⟨[], [⟨PyVal.num 1⟩]⟩
        ⟨[⟨"A", "AAA", 0, 10, 0, 0⟩], [⟨PyVal.num 1⟩]⟩).2 =
      some ⟨1, [⟨"AAA", "A", 0, 1000, 0, 0, ChangeType.OPEN⟩]⟩ := by
  have hgc : (get_changes ⟨[], [⟨PyVal.num 1⟩]⟩
      ⟨[⟨"A", "AAA", 0, 10, 0, 0⟩], [⟨PyVal.num 1⟩]⟩).1 =
      [(none, some ⟨"A", "AAA", 0, 10, 0, 0⟩)] := by
    simp [get_changes, buildDict, dictInsert, dictKeys, dictLookup]
  have hv : (get_changes ⟨[], [⟨PyVal.num 1⟩]⟩
      ⟨[⟨"A", "AAA", 0, 10, 0, 0⟩], [⟨PyVal.num 1⟩]⟩).2 = PyVal.num 1 := rfl
  have h1000 : round2 (1000 : ℚ) = 1000 := by
    have h := round2_intCast 1000
    norm_num at h
    exact h
  have hz : round2 (0 : ℚ) = 0 := by
    have h := round2_intCast 0
    norm_num at h
    exact h
  have hpp : processPair (PyVal.num 1) (none, some ⟨"A", "AAA", 0, 10, 0, 0⟩) =
      some ⟨"AAA", "A", 0, 1000, 0, 0, ChangeType.OPEN⟩ := by
    have hd : newPct (PyVal.num 1) (none, some ⟨"A", "AAA", 0, 10, 0, 0⟩) -
        oldPct (PyVal.num 1) (none, some ⟨"A", "AAA", 0, 10, 0, 0⟩) = 1000 := by
      norm_num [newPct, oldPct, newTotalOf, oldTotalOf, sanitizeDenom]
    unfold processPair
    rw [if_neg]
    · norm_num [newPct, oldPct, newTotalOf, oldTotalOf, sanitizeDenom, codeOf,
        rawCodeOf, nameOf, marketOf, displayPrice, displayCost, h1000, hz, classifyOf]
    · rw [hd]
      norm_num [pyAbs]
  rw [hgc, hv]
  have hfm : List.filterMap (processPair (PyVal.num 1))
      [(none, some ⟨"A", "AAA", 0, 10, 0, 0⟩)] =
      [⟨"AAA", "A", 0, 1000, 0, 0, ChangeType.OPEN⟩] := by
    simp [List.filterMap_cons, hpp]
  norm_num [generate_change_data, hfm, sanitizeDenom]

/-- C2 (counterexample): with an order-submission collaborator that fails
terminally on every symbol, a change list `[AAA, BBB]` (both OPEN at
1000%) is aborted at `AAA` — `BBB`'s change-processing step never runs —
and the escaped exception reaches the `main` loop, where nothing catches
it, so the cycle ends in `Except.error` rather than continuing. -/
theorem failure_propagation_counterexample :
    track_and_trade (fun _ => Except.error (0 : ℕ)) 10000 (fun _ => 0) (fun _ => 10)
      [⟨"AAA", "A", 0, 1000, 10, 10, ChangeType.OPEN⟩,
       ⟨"BBB", "B", 0, 1000, 10, 10, ChangeType.OPEN⟩] = (["AAA"], some 0) ∧
    ¬("BBB" ∈ (track_and_trade (fun _ => Except.error (0 : ℕ)) 10000 (fun _ => 0)
      (fun _ => 10)
      [⟨"AAA", "A", 0, 1000, 10, 10, ChangeType.OPEN⟩,
       ⟨"BBB", "B", 0, 1000, 10, 10, ChangeType.OPEN⟩]).1) ∧
    mainCycle (fun _ => Except.error (0 : ℕ)) (some ⟨[], [⟨PyVal.num 1⟩]⟩)
      ⟨[⟨"A", "AAA", 0, 10, 0, 0⟩], [⟨PyVal.num 1⟩]⟩ = Except.error 0 := by
  have htt : track_and_trade (fun _ => Except.error (0 : ℕ)) 10000 (fun _ => 0)
      (fun _ => 10)
      [⟨"AAA", "A", 0, 1000, 10, 10, ChangeType.OPEN⟩,
       ⟨"BBB", "B", 0, 1000, 10, 10, ChangeType.OPEN⟩] = (["AAA"], some 0) := by
    simp [track_and_trade, open_entry_trade_decision, TradeAction.isOrder]
  refine ⟨htt, ?_, ?_⟩
  · rw [htt]
    simp
  · have hrec : (⟨[], [⟨PyVal.num 1⟩]⟩ : FullData).record_items ≠
        (⟨[⟨"A", "AAA", 0, 10, 0, 0⟩], [⟨PyVal.num 1⟩]⟩ : FullData).record_items := by
      simp
    have hne : (get_changes ⟨[], [⟨PyVal.num 1⟩]⟩
        ⟨[⟨"A", "AAA", 0, 10, 0, 0⟩], [⟨PyVal.num 1⟩]⟩).1 ≠ [] := by
      intro hi
      have := open_pair_generation
      rw [hi] at this
      simp [generate_change_data] at this
    have hcall : call_trade_api (fun _ => Except.error (0 : ℕ))
        ⟨[], [⟨PyVal.num 1⟩]⟩ ⟨[⟨"A", "AAA", 0, 10, 0, 0⟩], [⟨PyVal.num 1⟩]⟩ =
        Except.error 0 := by
      unfold call_trade_api
      rw [if_neg hne, open_pair_generation]
    simp only [mainCycle]
    rw [if_neg hrec, hcall]

/-- C2 (amended): a terminal order-submission failure on one symbol aborts
the WHOLE change-processing loop — the remaining symbols in the cycle's
change list are never processed — and the exception propagates uncaught
through `call_trade_api` into `main`, ending the loop (fatal to the
process), since no handler surrounds the change-processing step. -/
theorem failure_propagation_amended {ε : Type} (submit : String → Except ε Unit)
    (b : ℚ) (posQty : String → ℤ) (quote : String → ℚ) (c : ChangeEntry)
    (rest : List ChangeEntry) (e : ε) (exec : JsonOutput → Except ε Unit)
    (l cur : FullData) (j : JsonOutput)
    (hord : (trackDecision b c.change_type c.new_ratio_percent (posQty c.stock_code)
      (round2 (quote c.stock_code))).isOrder = true)
    (hsub : submit c.stock_code = Except.error e)
    (hrec : l.record_items ≠ cur.record_items)
    (hgen : generate_change_data (get_changes l cur).1 (get_changes l cur).2 = some j)
    (hexec : exec j = Except.error e) :
    track_and_trade submit b posQty quote (c :: rest) = ([c.stock_code], some e) ∧
    mainCycle exec (some l) cur = Except.error e := by
  constructor
  · simp only [track_and_trade]
    rw [if_pos hord, hsub]
  · have hne : (get_changes l cur).1 ≠ [] := by
      intro hi
      rw [hi] at hgen
      simp [generate_change_data] at hgen
    have hcall : call_trade_api exec l cur = Except.error e := by
      unfold call_trade_api
      rw [if_neg hne, hgen]
      simp [hexec]
    simp only [mainCycle]
    rw [if_neg hrec, hcall]

/-- Witness for `failure_propagation_amended` at the concrete failing
collaborator and one-record snapshot change. -/
theorem failure_propagation_amended_witness :
    track_and_trade (fun _ => Except.error (7 : ℕ)) 10000 (fun _ => 0) (fun _ => 10)
      [⟨"AAA", "A", 0, 1000, 10, 10, ChangeType.OPEN⟩] = (["AAA"], some 7) ∧
    mainCycle (fun _ => Except.error (7 : ℕ)) (some ⟨[], [⟨PyVal.num 1⟩]⟩)
      ⟨[⟨"A", "AAA", 0, 10, 0, 0⟩], [⟨PyVal.num 1⟩]⟩ = Except.error 7 :=
  failure_propagation_amended (fun _ => Except.error (7 : ℕ)) 10000 (fun _ => 0)
    (fun _ => 10) ⟨"AAA", "A", 0, 1000, 10, 10, ChangeType.OPEN⟩ [] 7
    (fun _ => Except.error (7 : ℕ)) ⟨[], [⟨PyVal.num 1⟩]⟩
    ⟨[⟨"A", "AAA", 0, 10, 0, 0⟩], [⟨PyVal.num 1⟩]⟩
    ⟨1, [⟨"AAA", "A", 0, 1000, 0, 0, ChangeType.OPEN⟩]⟩
    (by rw [open_entry_trade_decision]; rfl) rfl (by simp) open_pair_generation rfl
